import Mathlib

/-!
Verification development for the WebVideoControll repository (src/main.py).

The file shallowly embeds the frame-transform and streaming pipeline:

* the color-correction step (`apply_color_correction`, built on
  `cv2.convertScaleAbs`, which computes `saturate_cast<uchar>(|alpha*x + beta|)`
  with round-half-to-even rounding),
* the per-tick geometry of `mjpeg_streamer` (bounding box of the destination
  quadrilateral through Python `int()` truncation, output canvas size,
  perspective/rotation stages with the OpenCV calls kept as opaque operation
  parameters),
* the settings API (`get_settings` / `update_settings` over the global
  configuration plus the on-disk settings file, with the file write modelled
  as an external operation that can fail),
* an interleaving model of the producer thread `video_loop`, the settings
  endpoint, and a streamer read, to reason about the shared globals
  `latest_frame` / `ORIG_WIDTH` / `ORIG_HEIGHT` during a video-source switch.

Machine floats of the Python code are modelled as rationals; all concrete
inputs used in counterexamples are exactly representable as `float32`, so the
rational model agrees with the Python evaluation on them.  Pixels are natural
numbers (8-bit channel values).
-/

namespace WVC

/-- A raster image: rows of 8-bit channel values (uint8 modelled as `Nat`). -/
abbrev Img := List (List Nat)

/-- A numeric matrix, as returned by the OpenCV matrix constructors. -/
abbrev Mat := List (List ℚ)

/-- `class CornerPoint(BaseModel)` of src/main.py: a 2D destination-space
coordinate. -/
structure CornerPoint where
  x : ℚ
  y : ℚ
deriving DecidableEq

/-- `class TransformSettings(BaseModel)` of src/main.py: the single global
configuration.  Note the video-source field is named `videoName` in the code. -/
structure TransformSettings where
  videoName : String
  topLeft : CornerPoint
  topRight : CornerPoint
  bottomRight : CornerPoint
  bottomLeft : CornerPoint
  brightness : ℚ
  contrast : ℚ
  saturation : ℚ
  rotation : ℚ
deriving DecidableEq

/-- OpenCV `cvRound`: round to nearest integer, ties to even. -/
def roundHalfEven (q : ℚ) : ℤ :=
  let f := ⌊q⌋
  let r := q - (f : ℚ)
  if r < 1 / 2 then f
  else if 1 / 2 < r then f + 1
  else if f % 2 = 0 then f else f + 1

/-- OpenCV `saturate_cast<uchar>`: round (ties to even) and clamp to [0, 255]. -/
def saturateCastUChar (q : ℚ) : ℕ :=
  let r := roundHalfEven q
  if r ≤ 0 then 0
  else if 255 ≤ r then 255
  else r.toNat

/-- Per-channel action of `cv2.convertScaleAbs`:
`dst = saturate_cast<uchar>(|src * alpha + beta|)`.  The absolute value is part
of the library operation. -/
def convertScaleAbsPix (alpha beta : ℚ) (x : ℕ) : ℕ :=
  saturateCastUChar |alpha * (x : ℚ) + beta|

/-- `cv2.convertScaleAbs` applied to a whole raster, channel by channel. -/
def convertScaleAbs (img : Img) (alpha beta : ℚ) : Img :=
  img.map (List.map (convertScaleAbsPix alpha beta))

/-- `apply_color_correction` of src/main.py lines 154-159:
`alpha = c / 100.0`, `beta = b - 100`, then `cv2.convertScaleAbs`.  The
saturation argument `s` is accepted and ignored, exactly as in the source. -/
def apply_color_correction (img : Img) (b c s : ℚ) : Img :=
  let alpha := c / 100
  let beta := b - 100
  convertScaleAbs img alpha beta

/-- Following the words of claim C3 (not the source): the linear value
`(c/100)*x + (b-100)` clamped to [0, 255], values below 0 saturating to 0 and
values above 255 saturating to 255 (rounding as in the code, ties to even). -/
def specColorCorrectionPix (b c : ℚ) (x : ℕ) : ℕ :=
  let v := c / 100 * (x : ℚ) + (b - 100)
  if v ≤ 0 then 0
  else if 255 ≤ v then 255
  else (roundHalfEven v).toNat

/-- The claimed color correction (C3), applied to a whole raster. -/
def specColorCorrectionImage (b c : ℚ) (img : Img) : Img :=
  img.map (List.map (specColorCorrectionPix b c))

/-- Every channel value of the image has a nonnegative linear gain/offset
result under brightness `b` and contrast `c`. -/
def linearNonneg (b c : ℚ) (img : Img) : Bool :=
  img.all fun row => row.all fun x => decide (0 ≤ c / 100 * (x : ℚ) + (b - 100))

/-- Every channel value is a valid 8-bit value. -/
def validImage (img : Img) : Bool :=
  img.all fun row => row.all fun x => decide (x ≤ 255)

/-- Python `int()` applied to a real value: truncation toward zero. -/
def pyInt (q : ℚ) : ℤ :=
  if 0 ≤ q then ⌊q⌋ else ⌈q⌉

/-- Minimum of the four coordinates of a numpy column, `min(dst[:, i])`. -/
def min4 (a b c d : ℚ) : ℚ := min (min (min a b) c) d

/-- Maximum of the four coordinates of a numpy column, `max(dst[:, i])`. -/
def max4 (a b c d : ℚ) : ℚ := max (max (max a b) c) d

/-- The destination quadrilateral `dst` of `mjpeg_streamer` (lines 174-179),
in the order topLeft, topRight, bottomRight, bottomLeft. -/
def dstPoints (s : TransformSettings) : List (ℚ × ℚ) :=
  [(s.topLeft.x, s.topLeft.y), (s.topRight.x, s.topRight.y),
   (s.bottomRight.x, s.bottomRight.y), (s.bottomLeft.x, s.bottomLeft.y)]

/-- The source quadrilateral `src` (line 173): the frame's own corners. -/
def srcPoints (w h : ℕ) : List (ℚ × ℚ) :=
  [(0, 0), ((w : ℚ), 0), ((w : ℚ), (h : ℚ)), (0, (h : ℚ))]

/-- `min(dst[:, 0])` as an exact rational. -/
def minXq (s : TransformSettings) : ℚ :=
  min4 s.topLeft.x s.topRight.x s.bottomRight.x s.bottomLeft.x

/-- `max(dst[:, 0])` as an exact rational. -/
def maxXq (s : TransformSettings) : ℚ :=
  max4 s.topLeft.x s.topRight.x s.bottomRight.x s.bottomLeft.x

/-- `min(dst[:, 1])` as an exact rational. -/
def minYq (s : TransformSettings) : ℚ :=
  min4 s.topLeft.y s.topRight.y s.bottomRight.y s.bottomLeft.y

/-- `max(dst[:, 1])` as an exact rational. -/
def maxYq (s : TransformSettings) : ℚ :=
  max4 s.topLeft.y s.topRight.y s.bottomRight.y s.bottomLeft.y

/-- `min_x = int(min(dst[:, 0]))` (line 182). -/
def min_x (s : TransformSettings) : ℤ := pyInt (minXq s)

/-- `max_x = int(max(dst[:, 0]))` (line 183). -/
def max_x (s : TransformSettings) : ℤ := pyInt (maxXq s)

/-- `min_y = int(min(dst[:, 1]))` (line 184). -/
def min_y (s : TransformSettings) : ℤ := pyInt (minYq s)

/-- `max_y = int(max(dst[:, 1]))` (line 185). -/
def max_y (s : TransformSettings) : ℤ := pyInt (maxYq s)

/-- `output_width = max_x - min_x` (line 188). -/
def output_width (s : TransformSettings) : ℤ := max_x s - min_x s

/-- `output_height = max_y - min_y` (line 189). -/
def output_height (s : TransformSettings) : ℤ := max_y s - min_y s

/-- 2D cross product of `oa` and `ob`, used to state convexity of the
destination quadrilateral. -/
def cross (o a b : ℚ × ℚ) : ℚ :=
  (a.1 - o.1) * (b.2 - o.2) - (a.2 - o.2) * (b.1 - o.1)

/-- The four corner points, in their configured order, form a strictly convex
quadrilateral: all consecutive cross products share one strict sign. -/
def convexQuadS (s : TransformSettings) : Bool :=
  let p := (s.topLeft.x, s.topLeft.y)
  let q := (s.topRight.x, s.topRight.y)
  let r := (s.bottomRight.x, s.bottomRight.y)
  let t := (s.bottomLeft.x, s.bottomLeft.y)
  (decide (0 < cross p q r) && decide (0 < cross q r t) &&
   decide (0 < cross r t p) && decide (0 < cross t p q)) ||
  (decide (cross p q r < 0) && decide (cross q r t < 0) &&
   decide (cross r t p < 0) && decide (cross t p q < 0))

/-- All eight corner coordinates are integers (denominator 1). -/
def intCoordsB (s : TransformSettings) : Bool :=
  (dstPoints s).all fun p => p.1.den == 1 && p.2.den == 1

/-- The OpenCV calls made by `mjpeg_streamer`, kept as opaque operation
parameters of the embedding: the repository does not define them, it only
calls into the library. -/
structure CvOps where
  getPerspectiveTransform : List (ℚ × ℚ) → List (ℚ × ℚ) → Mat
  warpPerspective : Img → Mat → ℤ → ℤ → Img
  getRotationMatrix2D : ℤ × ℤ → ℚ → ℚ → Mat
  warpAffine : Img → Mat → ℤ → ℤ → Img
  imencode : Img → Option (List ℕ)

/-- The per-tick raster pipeline of `mjpeg_streamer` (lines 172-212): build
`src`/`dst`, bounding box, translated destination points, perspective warp,
color correction, rotation about the output center.  There is no check of
`output_width`/`output_height` before the warp, exactly as in the source. -/
def transformFrame (ops : CvOps) (frame : Img) (w h : ℕ)
    (s : TransformSettings) : Img :=
  let src := srcPoints w h
  let dst := dstPoints s
  let dstCorrected := dst.map fun p => (p.1 - (min_x s : ℚ), p.2 - (min_y s : ℚ))
  let M := ops.getPerspectiveTransform src dstCorrected
  let warped := ops.warpPerspective frame M (output_width s) (output_height s)
  let corrected := apply_color_correction warped s.brightness s.contrast s.saturation
  let center := (Int.fdiv (output_width s) 2, Int.fdiv (output_height s) 2)
  let rotMat := ops.getRotationMatrix2D center s.rotation 1
  ops.warpAffine corrected rotMat (output_width s) (output_height s)

/-- Outcome of one iteration of the `while True` body of `mjpeg_streamer`. -/
inductive TickResult where
  | waiting
  | encodeFailed
  | emitted (bytes : List ℕ)
deriving DecidableEq

/-- One iteration of `mjpeg_streamer` (lines 163-222): if no frame has been
published yet, sleep and continue (`waiting`); otherwise run the transform
pipeline, JPEG-encode, and either continue on encode failure or yield the
encoded bytes.  These are the only two skip conditions in the source. -/
def streamTick (ops : CvOps) (latest : Option Img) (w h : ℕ)
    (s : TransformSettings) : TickResult :=
  match latest with
  | none => TickResult.waiting
  | some frame =>
    let out := transformFrame ops frame w h s
    match ops.imencode out with
    | none => TickResult.encodeFailed
    | some bytes => TickResult.emitted bytes

/-- A concrete instantiation of the opaque OpenCV operations, used to evaluate
the tick control flow on explicit inputs. -/
def idOps : CvOps :=
  { getPerspectiveTransform := fun _ _ => [[1, 0, 0], [0, 1, 0], [0, 0, 1]]
    warpPerspective := fun img _ _ _ => img
    getRotationMatrix2D := fun _ _ _ => [[1, 0, 0], [0, 1, 0]]
    warpAffine := fun img _ _ _ => img
    imencode := fun img => some img.flatten }

/-- Degenerate settings for claim C1: all four corner points coincident at
the origin, so the destination quadrilateral has zero area and the computed
output size is 0 by 0. -/
def degSettings : TransformSettings :=
  { videoName := "video.mp4"
    topLeft := { x := 0, y := 0 }
    topRight := { x := 0, y := 0 }
    bottomRight := { x := 0, y := 0 }
    bottomLeft := { x := 0, y := 0 }
    brightness := 100
    contrast := 100
    saturation := 100
    rotation := 0 }

/-- A JSON value, for the shape of the `/settings` responses. -/
inductive JValue where
  | str (s : String)
  | num (q : ℚ)
  | obj (fields : List (String × JValue))

/-- pydantic `model_dump` of a `CornerPoint`. -/
def cornerDump (p : CornerPoint) : JValue :=
  JValue.obj [("x", JValue.num p.x), ("y", JValue.num p.y)]

/-- pydantic `model_dump` of a `TransformSettings`: field names and order are
those of the class declaration in src/main.py lines 18-27. -/
def model_dump (s : TransformSettings) : List (String × JValue) :=
  [("videoName", JValue.str s.videoName),
   ("topLeft", cornerDump s.topLeft),
   ("topRight", cornerDump s.topRight),
   ("bottomRight", cornerDump s.bottomRight),
   ("bottomLeft", cornerDump s.bottomLeft),
   ("brightness", JValue.num s.brightness),
   ("contrast", JValue.num s.contrast),
   ("saturation", JValue.num s.saturation),
   ("rotation", JValue.num s.rotation)]

/-- The server-side mutable state touched by the settings endpoints: the live
global `current_settings`, the content of the durable `settings.json`, and the
`video_restart_event` flag. -/
structure ApiState where
  current : TransformSettings
  storedFile : TransformSettings
  restartEvent : Bool

/-- `GET /settings` handler (lines 132-134): `current_settings.model_dump()`. -/
def get_settings (st : ApiState) : List (String × JValue) :=
  model_dump st.current

/-- Result of a `POST /settings` call: the JSON reply, or a propagated
exception from the settings-file write. -/
inductive UpdateResult where
  | ok
  | raised
deriving DecidableEq

/-- `POST /settings` handler `update_settings` (lines 136-152), with the
`open("settings.json", "w")`/`json.dump` pair modelled as an external write
whose success is the parameter `writeOk`.  The order of effects follows the
source: compute `video_changed` from the old settings, swap the live global,
write the file (an exception propagates from here, the old file content
untouched in the unopenable/unwritable case), then set the restart event if
the video name changed, then return the ok status. -/
def update_settings (writeOk : Bool) (new : TransformSettings)
    (st : ApiState) : ApiState × UpdateResult :=
  let video_changed := st.current.videoName != new.videoName
  let st1 : ApiState := { st with current := new }
  if writeOk then
    let st2 : ApiState := { st1 with storedFile := new }
    let st3 : ApiState :=
      if video_changed then { st2 with restartEvent := true } else st2
    (st3, UpdateResult.ok)
  else
    (st1, UpdateResult.raised)

/-- Sample settings for claim C4's concrete evaluation. -/
def c4s : TransformSettings :=
  { videoName := "demo.mp4"
    topLeft := { x := 0, y := 0 }
    topRight := { x := 640, y := 0 }
    bottomRight := { x := 640, y := 480 }
    bottomLeft := { x := 0, y := 480 }
    brightness := 100
    contrast := 100
    saturation := 100
    rotation := 0 }

/-- Convex destination quadrilateral with non-integer corner coordinates
(exactly representable in float32) for claim C5's concrete evaluation. -/
def c5s : TransformSettings :=
  { videoName := "clip.mp4"
    topLeft := { x := -1/2, y := 0 }
    topRight := { x := 5/2, y := 0 }
    bottomRight := { x := 5/2, y := 2 }
    bottomLeft := { x := -1/2, y := 2 }
    brightness := 100
    contrast := 100
    saturation := 100
    rotation := 0 }

/-- Convex destination quadrilateral with integer corner coordinates, for the
witness of claim C5's amended statement. -/
def c5w : TransformSettings :=
  { videoName := "clip.mp4"
    topLeft := { x := 0, y := 0 }
    topRight := { x := 4, y := 0 }
    bottomRight := { x := 4, y := 3 }
    bottomLeft := { x := 0, y := 3 }
    brightness := 100
    contrast := 100
    saturation := 100
    rotation := 0 }

/-- A decoded frame, tagged with the video source it was decoded from and a
decode counter (the pixel payload is irrelevant to claim C2). -/
structure Frame where
  source : String
  idx : Nat
deriving DecidableEq

/-- The environment of video files: native dimensions per source name and
whether `cv2.VideoCapture` can open the source. -/
structure VideoEnv where
  dims : String → Nat × Nat
  openable : String → Bool

/-- The shared globals of src/main.py relevant to claim C2: `latest_frame`,
`ORIG_WIDTH`, `ORIG_HEIGHT`, `current_settings.videoName`,
`video_restart_event`, and the `video_loop` local `current_video_name`. -/
structure SysState where
  latest : Option Frame
  origW : Nat
  origH : Nat
  settingsName : String
  restartEvent : Bool
  loopName : String
deriving DecidableEq

/-- Interleaved atomic steps of the producer thread and the settings endpoint. -/
inductive SysAction where
  | postSettings (name : String)
  | loopCheckSwitch
  | loopReadFrame (k : Nat)
deriving DecidableEq

/-- One atomic step of the system.

* `postSettings name`: the effect of `update_settings` on the shared state
  (lines 142-150): replace `current_settings.videoName`, and set
  `video_restart_event` when the name changed.
* `loopCheckSwitch`: the switch check at the top of `video_loop` (lines
  74-85): if the event is set or the open source differs from the configured
  one, adopt the configured name, clear the event, and - when the new source
  opens - overwrite `ORIG_WIDTH`/`ORIG_HEIGHT` with its dimensions.  Note the
  source updates the dimensions before any frame of the new source is decoded,
  while `latest_frame` still holds the previous source's frame.
* `loopReadFrame k`: a successful `cap.read()` inside the inner loop (lines
  101-104), publishing a frame of the currently open source into
  `latest_frame`. -/
def sysStep (env : VideoEnv) (st : SysState) : SysAction → SysState
  | SysAction.postSettings name =>
      { st with settingsName := name,
                restartEvent := st.restartEvent || (st.settingsName != name) }
  | SysAction.loopCheckSwitch =>
      if st.restartEvent || (st.loopName != st.settingsName) then
        let newName := st.settingsName
        if env.openable newName then
          { st with loopName := newName, restartEvent := false,
                    origW := (env.dims newName).1, origH := (env.dims newName).2 }
        else
          { st with loopName := newName, restartEvent := false }
      else st
  | SysAction.loopReadFrame k =>
      if env.openable st.loopName then
        { st with latest := some { source := st.loopName, idx := k } }
      else st

/-- Run a finite interleaving of atomic steps. -/
def sysRun (env : VideoEnv) (init : SysState) (acts : List SysAction) : SysState :=
  acts.foldl (sysStep env) init

/-- Process start (lines 52-67): probe the initial source's dimensions, no
frame published yet, event clear, loop local bound to the configured name. -/
def mkInit (env : VideoEnv) (name : String) : SysState :=
  { latest := none
    origW := (env.dims name).1
    origH := (env.dims name).2
    settingsName := name
    restartEvent := false
    loopName := name }

/-- The streamer's read of the shared slot (lines 164-170): copy
`latest_frame` if present and take the current `ORIG_WIDTH`/`ORIG_HEIGHT`. -/
def streamerRead (st : SysState) : Option (Frame × Nat × Nat) :=
  match st.latest with
  | none => none
  | some f => some (f, st.origW, st.origH)

/-- Claim C2's invariant: whatever frame a session reads, the dimensions read
with it are the native dimensions of the source that frame was decoded from. -/
def consistentRead (env : VideoEnv) (st : SysState) : Prop :=
  ∀ f w h, streamerRead st = some (f, w, h) →
    w = (env.dims f.source).1 ∧ h = (env.dims f.source).2

/-- The trace contains no settings update. -/
def noPostB (acts : List SysAction) : Bool :=
  acts.all fun a =>
    match a with
    | SysAction.postSettings _ => false
    | _ => true

/-- Steady-state invariant while the configured source never changes. -/
def steady (env : VideoEnv) (name : String) (st : SysState) : Prop :=
  st.settingsName = name ∧ st.loopName = name ∧ st.restartEvent = false ∧
  st.origW = (env.dims name).1 ∧ st.origH = (env.dims name).2 ∧
  ∀ f, st.latest = some f → f.source = name

/-- Two video sources with different native dimensions, both openable. -/
def env0 : VideoEnv :=
  { dims := fun n => if n = "b" then (1280, 720) else (640, 480)
    openable := fun _ => true }

/-- The source-switch interleaving for claim C2: decode a frame of source "a",
post settings selecting source "b", then let the producer run its switch check
(which overwrites the dimension globals before decoding anything from "b"). -/
def trace0 : List SysAction :=
  [SysAction.loopReadFrame 0, SysAction.postSettings "b", SysAction.loopCheckSwitch]

/-- C6: replacing only the saturation field of the Transform Settings leaves
both the transform pipeline's output raster and the whole streaming tick
unchanged, for every frame, every dimension pair, and every instantiation of
the OpenCV operations: the saturation setting has no effect on the rendered
output. -/
theorem c6_saturation_no_effect (ops : CvOps) (frame : Img) (latest : Option Img)
    (w h : ℕ) (s : TransformSettings) (v : ℚ) :
    transformFrame ops frame w h { s with saturation := v } =
      transformFrame ops frame w h s ∧
    streamTick ops latest w h { s with saturation := v } =
      streamTick ops latest w h s :=
  ⟨rfl, rfl⟩

/-- C7: a `POST /settings` call whose file write succeeds returns the ok
status, swaps the live settings to the new value, persists the new value to
the settings file before returning, and leaves the restart event equal to its
old value or-ed with whether the video name changed - i.e. the call raises the
source-changed signal exactly when the new video name differs from the old
one. -/
theorem c7_update_settings_contract (new : TransformSettings) (st : ApiState) :
    (update_settings true new st).2 = UpdateResult.ok ∧
    (update_settings true new st).1.current = new ∧
    (update_settings true new st).1.storedFile = new ∧
    (update_settings true new st).1.restartEvent =
      (st.restartEvent || (st.current.videoName != new.videoName)) := by
  unfold update_settings
  cases h : st.current.videoName != new.videoName <;> simp [h]

/-- C8: a well-formed settings value posted to `POST /settings` is exactly
what an immediately following `GET /settings` returns: the live settings equal
the posted value and the GET response is its `model_dump`, with no coercion
and no stale data. -/
theorem c8_post_then_get_returns_posted (posted : TransformSettings) (st : ApiState) :
    (update_settings true posted st).1.current = posted ∧
    get_settings ((update_settings true posted st).1) = model_dump posted := by
  unfold update_settings get_settings
  cases h : st.current.videoName != posted.videoName <;> simp [h]

/-- C10: when the settings-file write raises, `update_settings` has already
replaced the live settings with the new value, the durable storage still holds
the old value, the restart event is untouched (the signal is never raised on
this path), and the exception propagates instead of the ok status: no rollback
occurs. -/
theorem c10_failed_persist_no_rollback (new : TransformSettings) (st : ApiState) :
    (update_settings false new st).1.current = new ∧
    (update_settings false new st).1.storedFile = st.storedFile ∧
    (update_settings false new st).1.restartEvent = st.restartEvent ∧
    (update_settings false new st).2 = UpdateResult.raised := by
  unfold update_settings
  simp

/-- C1, evaluation at the failing input: with all four corner points
coincident at the origin the computed output size is 0 by 0, yet the streaming
tick is not skipped - the source has no degeneracy check, so the tick proceeds
through the perspective-transform, warp, color-correction, rotation and encode
stages and emits, rather than skipping to the next tick as the claim states
(with the real OpenCV operations, the encode of the empty raster raises and
terminates the session). -/
theorem c1_degenerate_tick_not_skipped :
    output_width degSettings = 0 ∧ output_height degSettings = 0 ∧
    streamTick idOps (some [[7]]) 640 480 degSettings = TickResult.emitted [7] := by
  with_unfolding_all decide

/-- C3, counterexample: for channel value 0, brightness 0 and contrast 100 the
claim's clamp-to-[0,255] formula yields 0, but `apply_color_correction`
(through `cv2.convertScaleAbs`) yields |1 * 0 + (0 - 100)| = 100: negative
linear results are reflected by the absolute value, not saturated to 0. -/
theorem c3_counterexample :
    apply_color_correction [[0]] 0 100 100 = [[100]] ∧
    specColorCorrectionImage 0 100 [[0]] = [[0]] := by
  with_unfolding_all decide

/-- C4, counterexample: the field list of the `GET /settings` response is not
the claimed one - the video-source field is named `videoName` in the code, not
`videoSource`. -/
theorem c4_counterexample :
    (get_settings { current := c4s, storedFile := c4s, restartEvent := false }).map
        Prod.fst ≠
      ["videoSource", "topLeft", "topRight", "bottomRight", "bottomLeft",
       "brightness", "contrast", "saturation", "rotation"] := by
  decide

/-- C5, counterexample: for the convex destination rectangle with corners
(-1/2, 0), (5/2, 0), (5/2, 2), (-1/2, 2) the exact bounding-box width is 3,
but the code computes `int(5/2) - int(-1/2) = 2 - 0 = 2`: with non-integer
coordinates the output width does not equal `maxX - minX` exactly. -/
theorem c5_counterexample :
    convexQuadS c5s = true ∧ ((output_width c5s : ℚ) ≠ maxXq c5s - minXq c5s) := by
  with_unfolding_all decide

/-- C2, counterexample: after decoding a frame of source "a", posting settings
that select source "b", and letting the producer run its switch check, the
shared state pairs the frame decoded from "a" with the native dimensions of
"b" (1280 by 720 instead of 640 by 480): a session read at that instant
transforms a frame of one source with the dimensions of a different one. -/
theorem c2_counterexample :
    ¬ consistentRead env0 (sysRun env0 (mkInit env0 "a") trace0) := by
  intro h
  have h2 := h { source := "a", idx := 0 } 1280 720 (by decide)
  exact absurd h2.1 (by decide)

theorem steady_step (env : VideoEnv) (name : String) (st : SysState)
    (a : SysAction) (hs : steady env name st)
    (ha : ∀ n, a ≠ SysAction.postSettings n) :
    steady env name (sysStep env st a) := by
  obtain ⟨h1, h2, h3, h4, h5, h6⟩ := hs
  cases a with
  | postSettings n => exact absurd rfl (ha n)
  | loopCheckSwitch =>
      have hcond : (st.restartEvent || (st.loopName != st.settingsName)) = false := by
        rw [h3, h2, h1]; simp
      simp only [sysStep, hcond, Bool.false_eq_true, if_false]
      exact ⟨h1, h2, h3, h4, h5, h6⟩
  | loopReadFrame k =>
      by_cases hop : env.openable st.loopName = true
      · simp only [sysStep, hop, if_true]
        refine ⟨h1, h2, h3, h4, h5, ?_⟩
        intro f hf
        simp only [Option.some_inj] at hf
        rw [← hf, ← h2]
      · simp only [sysStep, hop, if_false]
        exact ⟨h1, h2, h3, h4, h5, h6⟩

theorem steady_run (env : VideoEnv) (name : String) (acts : List SysAction) :
    ∀ st : SysState, steady env name st → noPostB acts = true →
      steady env name (sysRun env st acts) := by
  induction acts with
  | nil => exact fun _ hs _ => hs
  | cons a as ih =>
      intro st hs hnp
      have hstep : steady env name (sysStep env st a) := by
        cases a with
        | postSettings n =>
            exfalso
            have hfalse : noPostB (SysAction.postSettings n :: as) = false := by
              simp [noPostB]
            rw [hfalse] at hnp
            exact Bool.false_ne_true hnp
        | loopCheckSwitch =>
            exact steady_step env name st _ hs fun n hn => SysAction.noConfusion hn
        | loopReadFrame k =>
            exact steady_step env name st _ hs fun n hn => SysAction.noConfusion hn
      have has : noPostB as = true := by
        cases a with
        | postSettings n =>
            exfalso
            have hfalse : noPostB (SysAction.postSettings n :: as) = false := by
              simp [noPostB]
            rw [hfalse] at hnp
            exact Bool.false_ne_true hnp
        | loopCheckSwitch => simpa [noPostB] using hnp
        | loopReadFrame k => simpa [noPostB] using hnp
      exact ih (sysStep env st a) hstep has

/-- C2, amended: the frame and the native dimensions live in separate shared
variables, so the pairing invariant only holds while the configured video
source is never replaced.  Formally: starting from process start on source
`name`, any interleaving of producer steps and streamer reads that contains no
settings update always reads a frame together with the native dimensions of
its own source.  (With a settings update in the trace the invariant fails -
see the counterexample.) -/
theorem c2_steady_source_consistent (env : VideoEnv) (name : String)
    (acts : List SysAction) (_hopen : env.openable name = true)
    (hnp : noPostB acts = true) :
    consistentRead env (sysRun env (mkInit env name) acts) := by
  have hinit : steady env name (mkInit env name) := by
    refine ⟨rfl, rfl, rfl, rfl, rfl, ?_⟩
    intro f hf
    simp [mkInit] at hf
  have hfin := steady_run env name acts (mkInit env name) hinit hnp
  obtain ⟨h1, h2, h3, h4, h5, h6⟩ := hfin
  intro f w h hread
  unfold streamerRead at hread
  cases hl : (sysRun env (mkInit env name) acts).latest with
  | none => rw [hl] at hread; cases hread
  | some f0 =>
      rw [hl] at hread
      simp only [Option.some_inj, Prod.mk.injEq] at hread
      obtain ⟨hf0, hw, hh⟩ := hread
      have hsrc := h6 f0 hl
      rw [← hf0, hsrc, ← hw, ← hh, h4, h5]
      exact ⟨rfl, rfl⟩

theorem c2_steady_source_consistent_witness :
    env0.openable "a" = true ∧
    noPostB [SysAction.loopReadFrame 0, SysAction.loopCheckSwitch] = true ∧
    consistentRead env0
      (sysRun env0 (mkInit env0 "a")
        [SysAction.loopReadFrame 0, SysAction.loopCheckSwitch]) :=
  ⟨rfl, rfl, c2_steady_source_consistent env0 "a" _ rfl rfl⟩

/-- C4, amended: `GET /settings` returns the current Transform Settings as a
JSON object whose fields are exactly `videoName` (a string - the code's name
for the video-source field), the four corner points (each an object with
numeric `x` and `y`), and numeric `brightness`, `contrast`, `saturation`,
`rotation`. -/
theorem c4_settings_json_shape (st : ApiState) :
    (get_settings st).map Prod.fst =
      ["videoName", "topLeft", "topRight", "bottomRight", "bottomLeft",
       "brightness", "contrast", "saturation", "rotation"] ∧
    (get_settings st).lookup "videoName" = some (JValue.str st.current.videoName) ∧
    (get_settings st).lookup "topLeft" =
      some (JValue.obj [("x", JValue.num st.current.topLeft.x),
                        ("y", JValue.num st.current.topLeft.y)]) ∧
    (get_settings st).lookup "topRight" =
      some (JValue.obj [("x", JValue.num st.current.topRight.x),
                        ("y", JValue.num st.current.topRight.y)]) ∧
    (get_settings st).lookup "bottomRight" =
      some (JValue.obj [("x", JValue.num st.current.bottomRight.x),
                        ("y", JValue.num st.current.bottomRight.y)]) ∧
    (get_settings st).lookup "bottomLeft" =
      some (JValue.obj [("x", JValue.num st.current.bottomLeft.x),
                        ("y", JValue.num st.current.bottomLeft.y)]) ∧
    (get_settings st).lookup "brightness" = some (JValue.num st.current.brightness) ∧
    (get_settings st).lookup "contrast" = some (JValue.num st.current.contrast) ∧
    (get_settings st).lookup "saturation" = some (JValue.num st.current.saturation) ∧
    (get_settings st).lookup "rotation" = some (JValue.num st.current.rotation) := by
  unfold get_settings model_dump cornerDump
  refine ⟨rfl, ?_, ?_, ?_, ?_, ?_, ?_, ?_, ?_, ?_⟩ <;> rfl

theorem roundHalfEven_intCast (n : ℤ) : roundHalfEven (n : ℚ) = n := by
  unfold roundHalfEven
  rw [Int.floor_intCast]
  norm_num

theorem roundHalfEven_natCast (x : ℕ) : roundHalfEven (x : ℚ) = x := by
  have h := roundHalfEven_intCast (x : ℤ)
  rw [Int.cast_natCast] at h
  exact h

theorem roundHalfEven_ge_floor (q : ℚ) : ⌊q⌋ ≤ roundHalfEven q := by
  unfold roundHalfEven
  dsimp only
  split_ifs <;> omega

theorem roundHalfEven_le_floor_add_one (q : ℚ) : roundHalfEven q ≤ ⌊q⌋ + 1 := by
  unfold roundHalfEven
  dsimp only
  split_ifs <;> omega

theorem roundHalfEven_ge_of_le (q : ℚ) (n : ℤ) (h : (n : ℚ) ≤ q) :
    n ≤ roundHalfEven q :=
  le_trans (Int.le_floor.mpr h) (roundHalfEven_ge_floor q)

theorem roundHalfEven_le_of_lt (q : ℚ) (n : ℤ) (h : q < (n : ℚ)) :
    roundHalfEven q ≤ n := by
  have hf : ⌊q⌋ < n := Int.floor_lt.mpr h
  have hle := roundHalfEven_le_floor_add_one q
  omega

theorem roundHalfEven_nonneg (q : ℚ) (h : 0 ≤ q) : 0 ≤ roundHalfEven q :=
  roundHalfEven_ge_of_le q 0 (by exact_mod_cast h)

theorem convertScaleAbsPix_neutral (x : ℕ) (h : x ≤ 255) :
    convertScaleAbsPix 1 0 x = x := by
  unfold convertScaleAbsPix saturateCastUChar
  rw [one_mul, add_zero, abs_of_nonneg (by positivity : (0 : ℚ) ≤ (x : ℚ)),
    roundHalfEven_natCast]
  dsimp only
  split_ifs <;> omega

/-- C9: color correction at the neutral point (brightness 100, contrast 100,
any saturation) is the identity on every valid 8-bit image. -/
theorem c9_neutral_identity (img : Img) (s : ℚ) (h : validImage img = true) :
    apply_color_correction img 100 100 s = img := by
  unfold apply_color_correction convertScaleAbs
  have halpha : (100 : ℚ) / 100 = 1 := by norm_num
  have hbeta : (100 : ℚ) - 100 = 0 := by norm_num
  rw [halpha, hbeta]
  unfold validImage at h
  rw [List.all_eq_true] at h
  conv_rhs => rw [← List.map_id img]
  refine List.map_congr_left ?_
  intro row hrow
  have hr := h row hrow
  rw [List.all_eq_true] at hr
  simp only [id_eq]
  conv_rhs => rw [← List.map_id row]
  refine List.map_congr_left ?_
  intro x hx
  have hx255 := hr x hx
  rw [decide_eq_true_iff] at hx255
  simpa using convertScaleAbsPix_neutral x hx255

theorem c9_neutral_identity_witness :
    validImage [[0, 128, 255], [7]] = true ∧
    apply_color_correction [[0, 128, 255], [7]] 100 100 77 = [[0, 128, 255], [7]] :=
  ⟨rfl, c9_neutral_identity [[0, 128, 255], [7]] 77 rfl⟩

theorem convertScaleAbsPix_of_nonneg (alpha beta : ℚ) (x : ℕ)
    (h : 0 ≤ alpha * (x : ℚ) + beta) :
    convertScaleAbsPix alpha beta x =
      (if alpha * (x : ℚ) + beta ≤ 0 then 0
       else if 255 ≤ alpha * (x : ℚ) + beta then 255
       else (roundHalfEven (alpha * (x : ℚ) + beta)).toNat) := by
  unfold convertScaleAbsPix saturateCastUChar
  rw [abs_of_nonneg h]
  dsimp only
  by_cases h0 : alpha * (x : ℚ) + beta ≤ 0
  · have hv : alpha * (x : ℚ) + beta = 0 := le_antisymm h0 h
    rw [hv, if_pos le_rfl]
    have hz : roundHalfEven 0 = 0 := by
      have := roundHalfEven_intCast 0
      rwa [Int.cast_zero] at this
    rw [hz, if_pos le_rfl]
  · rw [if_neg h0]
    push_neg at h0
    by_cases h255 : 255 ≤ alpha * (x : ℚ) + beta
    · rw [if_pos h255]
      have hge : (255 : ℤ) ≤ roundHalfEven (alpha * (x : ℚ) + beta) :=
        roundHalfEven_ge_of_le _ 255 (by exact_mod_cast h255)
      split_ifs <;> omega
    · rw [if_neg h255]
      push_neg at h255
      have hub : roundHalfEven (alpha * (x : ℚ) + beta) ≤ 255 :=
        roundHalfEven_le_of_lt _ 255 (by exact_mod_cast h255)
      have hlb : 0 ≤ roundHalfEven (alpha * (x : ℚ) + beta) :=
        roundHalfEven_nonneg _ h
      split_ifs <;> omega

/-- C3, amended: for every channel value `x`, color correction outputs the
absolute value `|(c/100)*x + (b-100)|` rounded (ties to even) and saturated
above at 255; this equals the claimed clamp-to-[0,255] exactly when the linear
value `(c/100)*x + (b-100)` is nonnegative - for negative linear values the
code reflects through the absolute value instead of saturating to 0. -/
theorem c3_abs_clamp_agreement (b c s : ℚ) (img : Img)
    (h : linearNonneg b c img = true) :
    apply_color_correction img b c s = specColorCorrectionImage b c img := by
  unfold apply_color_correction convertScaleAbs specColorCorrectionImage
  unfold linearNonneg at h
  rw [List.all_eq_true] at h
  refine List.map_congr_left ?_
  intro row hrow
  have hr := h row hrow
  rw [List.all_eq_true] at hr
  refine List.map_congr_left ?_
  intro x hx
  have hxn := hr x hx
  rw [decide_eq_true_iff] at hxn
  unfold specColorCorrectionPix
  exact convertScaleAbsPix_of_nonneg (c / 100) (b - 100) x hxn

theorem c3_abs_clamp_agreement_witness :
    linearNonneg 150 100 [[0, 200]] = true ∧
    apply_color_correction [[0, 200]] 150 100 42 =
      specColorCorrectionImage 150 100 [[0, 200]] :=
  ⟨by with_unfolding_all decide,
   c3_abs_clamp_agreement 150 100 42 [[0, 200]] (by with_unfolding_all decide)⟩

theorem pyInt_intCast (n : ℤ) : pyInt (n : ℚ) = n := by
  unfold pyInt
  split_ifs with h
  · exact Int.floor_intCast n
  · exact Int.ceil_intCast n

theorem den_one_exists_int (q : ℚ) (h : q.den = 1) : ∃ n : ℤ, q = (n : ℚ) := by
  refine ⟨q.num, ?_⟩
  rw [← Rat.num_div_den q, h]
  norm_num

theorem pyInt_den_one (q : ℚ) (h : q.den = 1) : (pyInt q : ℚ) = q := by
  obtain ⟨n, rfl⟩ := den_one_exists_int q h
  rw [pyInt_intCast]

theorem min_den_one {a b : ℚ} (ha : a.den = 1) (hb : b.den = 1) :
    (min a b).den = 1 := by
  rcases min_choice a b with h | h <;> rw [h] <;> assumption

theorem max_den_one {a b : ℚ} (ha : a.den = 1) (hb : b.den = 1) :
    (max a b).den = 1 := by
  rcases max_choice a b with h | h <;> rw [h] <;> assumption

theorem min4_den_one {a b c d : ℚ} (ha : a.den = 1) (hb : b.den = 1)
    (hc : c.den = 1) (hd : d.den = 1) : (min4 a b c d).den = 1 :=
  min_den_one (min_den_one (min_den_one ha hb) hc) hd

theorem max4_den_one {a b c d : ℚ} (ha : a.den = 1) (hb : b.den = 1)
    (hc : c.den = 1) (hd : d.den = 1) : (max4 a b c d).den = 1 :=
  max_den_one (max_den_one (max_den_one ha hb) hc) hd

/-- C5, amended: the output canvas size equals `int(maxX) - int(minX)` by
`int(maxY) - int(minY)` with Python's truncation toward zero; for a convex
destination quadrilateral whose corner coordinates are all integers this is
exactly the bounding-box width and height, but for non-integer coordinates the
truncation makes it differ (see the counterexample). -/
theorem c5_integer_bbox_exact (s : TransformSettings)
    (_hconv : convexQuadS s = true) (hint : intCoordsB s = true) :
    ((output_width s : ℚ) = maxXq s - minXq s) ∧
    ((output_height s : ℚ) = maxYq s - minYq s) := by
  unfold intCoordsB dstPoints at hint
  simp only [List.all_cons, List.all_nil, Bool.and_eq_true, Bool.and_true,
    beq_iff_eq] at hint
  obtain ⟨⟨h1x, h1y⟩, ⟨h2x, h2y⟩, ⟨h3x, h3y⟩, h4x, h4y⟩ := hint
  have hminx : (minXq s).den = 1 := min4_den_one h1x h2x h3x h4x
  have hmaxx : (maxXq s).den = 1 := max4_den_one h1x h2x h3x h4x
  have hminy : (minYq s).den = 1 := min4_den_one h1y h2y h3y h4y
  have hmaxy : (maxYq s).den = 1 := max4_den_one h1y h2y h3y h4y
  constructor
  · unfold output_width max_x min_x
    push_cast
    rw [pyInt_den_one _ hmaxx, pyInt_den_one _ hminx]
  · unfold output_height max_y min_y
    push_cast
    rw [pyInt_den_one _ hmaxy, pyInt_den_one _ hminy]

theorem c5_integer_bbox_exact_witness :
    convexQuadS c5w = true ∧ intCoordsB c5w = true ∧
    (((output_width c5w : ℚ) = maxXq c5w - minXq c5w) ∧
     ((output_height c5w : ℚ) = maxYq c5w - minYq c5w)) :=
  ⟨by with_unfolding_all decide, by with_unfolding_all decide,
   c5_integer_bbox_exact c5w (by with_unfolding_all decide)
     (by with_unfolding_all decide)⟩

end WVC
